import Mathlib

/-!
A shallow embedding of the `PlatformAccessory` module of hoobs-core
(`src/unnamed/part_000`) together with proofs about its service registry,
its serializer (`_dictionaryPresentation`) and its deserializer
(`_configFromData`).

JavaScript objects are modelled as Lean structures; `undefined`-able string
fields become `Option String`; JavaScript object dictionaries (whose string
keys preserve insertion order and where assignment to a present key
overwrites in place) become insertion-ordered association lists.  A service
object's reference identity (JavaScript `===`) is modelled by a `ref : Nat`
tag.  Linked services, stored in the source as object references, are
modelled by the identity fields the surrounding code ever reads off a
linked target (its `UUID` and `subtype`).
-/

set_option autoImplicit false

namespace Hoobs

/-- A HAP characteristic, reduced to the five fields the module reads and
writes (`displayName`, `UUID`, `props`, `value`, `eventOnlyCharacteristic`).
`props` and `value` are opaque payloads copied verbatim, modelled as
strings. -/
structure Characteristic where
  displayName : String
  UUID : String
  props : String
  value : String
  eventOnlyCharacteristic : Bool
deriving DecidableEq, Repr

/-- A linked-service entry: the identity fields (`UUID`, `subtype`) of the
target service object stored in `service.linkedServices`. -/
structure LinkRef where
  UUID : String
  subtype : Option String
deriving DecidableEq, Repr

/-- A HAP service as seen by this module: display name, optional internal
`name`, category `UUID`, optional `subtype`, characteristics and linked
services.  `ref` models JavaScript object identity; `cls` models the
constructor (class) the object is an instance of, for `instanceof`
dispatch in `getService`. -/
structure Service where
  ref : Nat
  displayName : String
  name : Option String
  UUID : String
  subtype : Option String
  characteristics : List Characteristic
  linkedServices : List LinkRef
  cls : Option Nat
deriving DecidableEq, Repr

/-- The external HAP accessory collaborator (`_associatedHAPAccessory`),
reduced to the state this module mirrors onto it. -/
structure Collaborator where
  reachable : Bool
  services : List Service
deriving DecidableEq, Repr

/-- The `PlatformAccessory` object.  `context` is an opaque bag copied
verbatim, modelled as a string. -/
structure PlatformAccessory where
  displayName : String
  UUID : String
  category : Nat
  services : List Service
  reachable : Bool
  context : String
  associatedPlugin : Option String
  associatedPlatform : Option String
  associatedHAPAccessory : Option Collaborator
deriving DecidableEq, Repr

/-- The errors the module can raise.  The source throws plain `Error`s; the
spec's taxonomy names the first three `InvalidArgumentError` and the next
two `DuplicateIdentityError`.  `typeError` is the TypeError JavaScript
raises in `addService` when `existing.subtype.toString()` is evaluated on
an `undefined` subtype. -/
inductive AccessoryError where
  | invalidDisplayName
  | invalidUUIDEmpty
  | invalidUUIDFormat (u : String)
  | duplicateService (u : String)
  | duplicateServiceSubtype (u : String) (st : String)
  | typeError
deriving DecidableEq, Repr

/-- JavaScript truthiness of an optional string subtype: `undefined` and
`""` are falsy (`!service.subtype`). -/
def subFalsy : Option String → Bool
  | none => true
  | some s => s.isEmpty

/-- The composite service key `service.UUID + (service.subtype || "")`. -/
def compositeKey (u : String) (st : Option String) : String :=
  u ++ (st.getD "")

/-- First-match lookup in an insertion-ordered association list (JavaScript
`object[key]` read; keys are unique by construction via `alistPut`). -/
def alistGet {α : Type} (m : List (String × α)) (k : String) : Option α :=
  (m.find? (fun p => p.1 == k)).map (fun p => p.2)

/-- JavaScript `object[key] = v`: overwrite in place when the key is
present, else append (string keys keep insertion order). -/
def alistPut {α : Type} (m : List (String × α)) (k : String) (v : α) :
    List (String × α) :=
  if m.any (fun p => p.1 == k) then
    m.map (fun p => if p.1 == k then (k, v) else p)
  else m ++ [(k, v)]

/-- Modelled from the spec: `uuid.isValid` of the external hap-nodejs
dependency (not under `src/`), the "UUID-format validation" applied to the
accessory identifier: the canonical 8-4-4-4-12 hexadecimal form with
dashes at positions 8, 13, 18 and 23. -/
def uuidIsValid (s : String) : Bool :=
  s.length == 36 &&
  (List.range 36).all (fun i =>
    let c := s.data.getD i ' '
    if i == 8 || i == 13 || i == 18 || i == 23 then c == '-'
    else c.isDigit || ('a' ≤ c && c ≤ 'f') || ('A' ≤ c && c ≤ 'F'))

/-- Modelled from the spec: `Accessory.Categories.OTHER` of hap-nodejs, the
generic "other" device category the constructor defaults to. -/
def OTHER : Nat := 1

/-- The duplicate-identity scan of `addService` (`part_000` lines 69-81):
walk the existing services in order; at the first existing service with
the same `UUID`, throw the no-subtype duplicate error when the new
service's subtype is falsy, otherwise compare
`service.subtype.toString() === existing.subtype.toString()` — which
raises a TypeError when the existing service's subtype is `undefined` —
and throw the full-duplicate error on equality; on a distinct subtype the
scan continues. -/
def addServiceCheck : List Service → Service → Option AccessoryError
  | [], _ => none
  | existing :: rest, service =>
    if existing.UUID == service.UUID then
      if subFalsy service.subtype then
        some (AccessoryError.duplicateService existing.UUID)
      else
        match existing.subtype with
        | none => some AccessoryError.typeError
        | some est =>
          if service.subtype.getD "" == est then
            some (AccessoryError.duplicateServiceSubtype existing.UUID est)
          else addServiceCheck rest service
    else addServiceCheck rest service

/-- `PlatformAccessory.prototype.addService` (lines 64-90) for a ready-made
service object.  On success the service is pushed onto `services` and, when
a collaborator is attached, mirrored onto it; the source returns the
service, this pure model returns the updated accessory.  On a throw the
accessory is unmodified (the push happens after all checks), which the
`Except` result models by producing no accessory. -/
def PlatformAccessory.addService (acc : PlatformAccessory) (service : Service) :
    Except AccessoryError PlatformAccessory :=
  match addServiceCheck acc.services service with
  | some e => Except.error e
  | none =>
    let acc1 := { acc with services := acc.services ++ [service] }
    match acc1.associatedHAPAccessory with
    | some hap =>
      let hap1 := { hap with services := hap.services ++ [service] }
      Except.ok { acc1 with associatedHAPAccessory := some hap1 }
    | none => Except.ok acc1

/-- Remove the first service with the given reference identity. -/
def removeFirstRef : List Service → Nat → List Service
  | [], _ => []
  | t :: rest, r => if t.ref == r then rest else t :: removeFirstRef rest r

/-- `PlatformAccessory.prototype.removeService` (lines 92-112): find the
service by reference identity (`===`); when found (the `for...in` index is
a string, so even index `"0"` is truthy), splice it out and mirror the
removal onto an attached collaborator; when not found, do nothing. -/
def PlatformAccessory.removeService (acc : PlatformAccessory)
    (service : Service) : PlatformAccessory :=
  if acc.services.any (fun t => t.ref == service.ref) then
    let acc1 := { acc with services := removeFirstRef acc.services service.ref }
    match acc1.associatedHAPAccessory with
    | some hap =>
      let hap1 := { hap with services := removeFirstRef hap.services service.ref }
      { acc1 with associatedHAPAccessory := some hap1 }
    | none => acc1
  else acc

/-- The duck-typed selector of `getService`: a string (matched against
`service.displayName` and `service.name`) or a constructor-like value
carrying a class identity for `instanceof` and an optional static `UUID`
property. -/
inductive Selector where
  | byName (s : String)
  | byType (cls : Nat) (UUID : Option String)
deriving DecidableEq, Repr

/-- The matching rule shared by `getService` and
`getServiceByUUIDAndSubType` (lines 118-121 and 130-133): a string selector
matches on `displayName` or `name`; a constructor selector matches when the
service is an instance of it or its `UUID` property equals the service's
`UUID`. -/
def selectorMatch (sel : Selector) (service : Service) : Bool :=
  match sel with
  | Selector.byName s => service.displayName == s || service.name == some s
  | Selector.byType cls u => service.cls == some cls || u == some service.UUID

/-- `PlatformAccessory.prototype.getService` (lines 114-124): first match
in insertion order, `undefined` (here `none`) when nothing matches. -/
def PlatformAccessory.getService (acc : PlatformAccessory) (sel : Selector) :
    Option Service :=
  acc.services.find? (fun s => selectorMatch sel s)

/-- `PlatformAccessory.prototype.getServiceByUUIDAndSubType` (lines
126-136): same matching rule, additionally requiring
`service.subtype === subtype`. -/
def PlatformAccessory.getServiceByUUIDAndSubType (acc : PlatformAccessory)
    (sel : Selector) (subtype : Option String) : Option Service :=
  acc.services.find? (fun s => selectorMatch sel s && s.subtype == subtype)

/-- `PlatformAccessory.prototype.updateReachability` (lines 138-144): set
the local flag and mirror it onto an attached collaborator. -/
def PlatformAccessory.updateReachability (acc : PlatformAccessory)
    (r : Bool) : PlatformAccessory :=
  let acc1 := { acc with reachable := r }
  match acc1.associatedHAPAccessory with
  | some hap =>
    { acc1 with associatedHAPAccessory := some ({ hap with reachable := r }) }
  | none => acc1

/-- Modelled from the spec: the characteristic UUIDs of the four default
metadata characteristics (name, manufacturer, model, serial number) of the
hap-nodejs accessory-information service (not under `src/`). -/
def nameUUID : String := "characteristic:Name"

def manufacturerUUID : String := "characteristic:Manufacturer"

def modelUUID : String := "characteristic:Model"

def serialNumberUUID : String := "characteristic:SerialNumber"

/-- Modelled from the spec: the service UUID of hap-nodejs
`Service.AccessoryInformation` (not under `src/`). -/
def accessoryInformationUUID : String := "service:AccessoryInformation"

/-- Modelled from the spec: a fresh hap-nodejs
`Service.AccessoryInformation` instance — the accessory-information
service, carrying the four default metadata characteristics. -/
def accessoryInformationService : Service :=
  { ref := 0
    displayName := "Accessory Information"
    name := none
    UUID := accessoryInformationUUID
    subtype := none
    characteristics :=
      [ { displayName := "Name", UUID := nameUUID, props := "", value := "",
          eventOnlyCharacteristic := false }
      , { displayName := "Manufacturer", UUID := manufacturerUUID, props := "",
          value := "", eventOnlyCharacteristic := false }
      , { displayName := "Model", UUID := modelUUID, props := "", value := "",
          eventOnlyCharacteristic := false }
      , { displayName := "SerialNumber", UUID := serialNumberUUID, props := "",
          value := "", eventOnlyCharacteristic := false } ]
    linkedServices := []
    cls := none }

/-- Modelled from the spec: hap-nodejs `setCharacteristic` (not under
`src/`): set the value of the service's characteristic with the given
characteristic UUID. -/
def Service.setCharacteristic (s : Service) (u v : String) : Service :=
  { s with characteristics :=
      s.characteristics.map (fun c =>
        if c.UUID == u then { c with value := v } else c) }

/-- The `PlatformAccessory` constructor (lines 31-60): validate
`displayName` (non-empty), `UUID` (non-empty and UUID-format valid),
default the category to `OTHER` when the argument is falsy, initialise the
fields, then add the accessory-information service and set its four
default metadata characteristics.  The source sets the characteristics on
the object after pushing it; since `addService`'s checks never read
characteristics, setting them before the push is equivalent here. -/
def PlatformAccessory.create (displayName UUID : String)
    (category : Option Nat) : Except AccessoryError PlatformAccessory :=
  if displayName.isEmpty then Except.error AccessoryError.invalidDisplayName
  else if UUID.isEmpty then Except.error AccessoryError.invalidUUIDEmpty
  else if !uuidIsValid UUID then
    Except.error (AccessoryError.invalidUUIDFormat UUID)
  else
    let base : PlatformAccessory :=
      { displayName := displayName
        UUID := UUID
        category := match category with
          | none => OTHER
          | some c => if c == 0 then OTHER else c
        services := []
        reachable := false
        context := ""
        associatedPlugin := none
        associatedPlatform := none
        associatedHAPAccessory := none }
    let info :=
      ((((accessoryInformationService.setCharacteristic nameUUID displayName
          ).setCharacteristic manufacturerUUID "Default-Manufacturer"
         ).setCharacteristic modelUUID "Default-Model"
        ).setCharacteristic serialNumberUUID "Default-SerialNumber")
    base.addService info

/-- One serialized service entry:
`{displayName, UUID, subtype, characteristics}`. -/
structure ServiceData where
  displayName : String
  UUID : String
  subtype : Option String
  characteristics : List Characteristic
deriving DecidableEq, Repr

/-- The flat dictionary produced by `_dictionaryPresentation` and consumed
by `_configFromData`.  `linkedServices` is a JavaScript object keyed by
composite service keys, modelled as an insertion-ordered association
list. -/
structure AccessoryData where
  plugin : Option String
  platform : Option String
  displayName : String
  UUID : String
  category : Nat
  context : String
  services : List ServiceData
  linkedServices : List (String × List String)
deriving DecidableEq, Repr

/-- The characteristic presentation built inside the serializer loop
(lines 209-215): a fresh object with the same five fields. -/
def characteristicPresentation (c : Characteristic) : Characteristic :=
  { displayName := c.displayName
    UUID := c.UUID
    props := c.props
    value := c.value
    eventOnlyCharacteristic := c.eventOnlyCharacteristic }

/-- JavaScript string conversion of an array of strings (`Array.prototype`
`toString`), as it occurs when an array is concatenated onto a string. -/
def jsArrayString (l : List String) : String := String.intercalate "," l

/-- The link-target key the serializer emits at line 200:
`service.linkedServices[i].UUID + (linkedServices.subtype || "")`.
`linkedServices` there is the dictionary under construction, so the read
is a lookup of the key `"subtype"` in it: `undefined` (hence `""`) unless
some earlier service's composite key was literally `"subtype"`, in which
case the stored array (always truthy in JavaScript, even empty) is
concatenated via its string form. -/
def linkedTargetKey (linked : List (String × List String)) (targetUUID : String) :
    String :=
  match alistGet linked "subtype" with
  | none => targetUUID
  | some arr => targetUUID ++ jsArrayString arr

/-- One iteration of the serializer's service loop (lines 189-223): emit
the service presentation, emit the link-target keys reading the dictionary
built so far, then assign the list under the service's composite key. -/
def dictionaryStep (st : List ServiceData × List (String × List String))
    (service : Service) : List ServiceData × List (String × List String) :=
  let linkedPres := service.linkedServices.map
    (fun ls => linkedTargetKey st.2 ls.UUID)
  let linked1 := alistPut st.2 (compositeKey service.UUID service.subtype) linkedPres
  let pres : ServiceData :=
    { displayName := service.displayName
      UUID := service.UUID
      subtype := service.subtype
      characteristics := service.characteristics.map characteristicPresentation }
  (st.1 ++ [pres], linked1)

/-- `PlatformAccessory.prototype._dictionaryPresentation` (lines 176-229). -/
def PlatformAccessory.dictionaryPresentation (acc : PlatformAccessory) :
    AccessoryData :=
  let st := acc.services.foldl dictionaryStep ([], [])
  { plugin := acc.associatedPlugin
    platform := acc.associatedPlatform
    displayName := acc.displayName
    UUID := acc.UUID
    category := acc.category
    context := acc.context
    services := st.1
    linkedServices := st.2 }

/-- The service object the deserializer builds for one serialized service
(lines 244-262): a fresh hap-nodejs `Service` from
`displayName`/`UUID`/`subtype`, sideloaded with characteristics rebuilt
field-for-field (modelled from the spec where hap-nodejs constructors are
concerned; the net effect is a value-equal characteristic list).  `ref`
is the object's fresh identity, its position in the rebuilt list. -/
def buildService (sd : ServiceData) (r : Nat) : Service :=
  { ref := r
    displayName := sd.displayName
    name := none
    UUID := sd.UUID
    subtype := sd.subtype
    characteristics := sd.characteristics
    linkedServices := []
    cls := none }

/-- One iteration of the deserializer's service loop (lines 243-263):
append the rebuilt service and record it in `servicesMap` under its
composite key.  The map stores the object reference, modelled as the
index into the rebuilt list. -/
def buildServicesStep (st : List Service × List (String × Nat))
    (sd : ServiceData) : List Service × List (String × Nat) :=
  (st.1 ++ [buildService sd st.1.length],
   alistPut st.2 (compositeKey sd.UUID sd.subtype) st.1.length)

/-- The deserializer's service pass: the rebuilt service list and the
composite-key map. -/
def buildServices (sds : List ServiceData) :
    List Service × List (String × Nat) :=
  sds.foldl buildServicesStep ([], [])

/-- One target key of the link-resolution pass (lines 272-276): skip a
target key absent from `servicesMap`; otherwise add a linked-service edge
from the source service to the target (hap-nodejs `addLinkedService`,
modelled from the spec as appending the target's identity to the source's
linked list).  The map stores object references, modelled as indices,
always in range, so the `get?` fallbacks never fire. -/
def addLinkedEdge (map : List (String × Nat)) (srcIdx : Nat)
    (svs : List Service) (tkey : String) : List Service :=
  match alistGet map tkey with
  | none => svs
  | some tIdx =>
    match svs.get? tIdx, svs.get? srcIdx with
    | some target, some src =>
      svs.set srcIdx
        { src with linkedServices :=
            src.linkedServices ++ [{ UUID := target.UUID, subtype := target.subtype }] }
    | _, _ => svs

/-- One entry of the link-resolution pass (lines 268-278): skip a source
key absent from `servicesMap`; otherwise process its target keys in
order. -/
def resolveEdgesStep (map : List (String × Nat)) (services : List Service)
    (kv : String × List String) : List Service :=
  match alistGet map kv.1 with
  | none => services
  | some srcIdx => kv.2.foldl (addLinkedEdge map srcIdx) services

/-- `PlatformAccessory.prototype._configFromData` (lines 231-282).  An
absent `data.linkedServices` is the empty association list (the
`if (data.linkedServices)` guard skips an empty pass either way). -/
def PlatformAccessory.configFromData (acc : PlatformAccessory)
    (data : AccessoryData) : PlatformAccessory :=
  let built := buildServices data.services
  let services := data.linkedServices.foldl (resolveEdgesStep built.2) built.1
  { acc with
    associatedPlugin := data.plugin
    associatedPlatform := data.platform
    displayName := data.displayName
    UUID := data.UUID
    category := data.category
    context := data.context
    reachable := false
    services := services }

/-- The dictionary entries whose source key resolves in the composite-key
map, with the targets that do not resolve filtered out of each list: the
part of `linkedServices` the deserializer can actually reconstruct. -/
def pruneLinked (map : List (String × Nat)) (ls : List (String × List String)) :
    List (String × List String) :=
  (ls.filter (fun kv => (alistGet map kv.1).isSome)).map
    (fun kv => (kv.1, kv.2.filter (fun t => (alistGet map t).isSome)))

/-- A bare accessory record used as the `this` object when exercising
`configFromData`, and as a fallback value. -/
def emptyBase : PlatformAccessory :=
  { displayName := ""
    UUID := ""
    category := 0
    services := []
    reachable := false
    context := ""
    associatedPlugin := none
    associatedPlatform := none
    associatedHAPAccessory := none }

/-- The accessory `create` produces on a valid input, `emptyBase` on an
invalid one. -/
def createdOrDefault (dn u : String) (cat : Option Nat) : PlatformAccessory :=
  match PlatformAccessory.create dn u cat with
  | Except.ok a => a
  | Except.error _ => emptyBase

/-- The accessory-information service after the constructor's four
`setCharacteristic` calls. -/
def infoService (dn : String) : Service :=
  (((accessoryInformationService.setCharacteristic nameUUID dn
     ).setCharacteristic manufacturerUUID "Default-Manufacturer"
    ).setCharacteristic modelUUID "Default-Model"
   ).setCharacteristic serialNumberUUID "Default-SerialNumber"

/-- A concrete well-formed accessory identifier. -/
def zeroUUID : String := "00000000-0000-0000-0000-000000000000"

/-- A bare service with a given identity, used to build concrete models. -/
def mkSvc (r : Nat) (u : String) (st : Option String) (links : List LinkRef) :
    Service :=
  { ref := r
    displayName := "Svc" ++ u
    name := none
    UUID := u
    subtype := st
    characteristics := []
    linkedServices := links
    cls := none }

/-- A model with service `A` (no subtype) linked to service `B` of subtype
`x`: the input on which serialization loses the target's subtype. -/
def accLinkDemo : PlatformAccessory :=
  { emptyBase with
    displayName := "Demo"
    UUID := zeroUUID
    category := 1
    services := [mkSvc 0 "A" none [{ UUID := "B", subtype := some "x" }],
                 mkSvc 1 "B" (some "x") []] }

/-- A model holding one service of UUID `A` with no subtype. -/
def accOneA : PlatformAccessory :=
  { emptyBase with
    displayName := "Acc"
    UUID := zeroUUID
    category := 1
    services := [mkSvc 0 "A" none []] }

/-- A model holding one service of UUID `A` with subtype `y`. -/
def accOneAy : PlatformAccessory :=
  { accOneA with services := [mkSvc 0 "A" (some "y") []] }

/-- A model with an attached collaborator whose reachability disagrees
with the model's. -/
def accWithHap : PlatformAccessory :=
  { accOneA with
    associatedHAPAccessory := some { reachable := true, services := [] } }

/-- `List.find?` returns the head of what remains after dropping the
non-matching prefix: the first match in order, `none` when nothing
matches. -/
theorem find_eq_head_dropWhile {α : Type} (p : α → Bool) (l : List α) :
    l.find? p = (l.dropWhile (fun x => !p x)).head? := by
  induction l with
  | nil => rfl
  | cons h t ih =>
    cases hp : p h with
    | true => simp [List.find?_cons, List.dropWhile_cons, hp]
    | false => simp [List.find?_cons, List.dropWhile_cons, hp, ih]

/-- C9: `getService` returns the first service in insertion order matching
the selector, and `getServiceByUUIDAndSubType` the first service matching
the selector whose subtype is exactly the given one; each returns `none`
when no service matches (the remainder after the non-matching prefix is
empty). -/
theorem getService_first_match (acc : PlatformAccessory) (sel : Selector)
    (st : Option String) :
    acc.getService sel =
      (acc.services.dropWhile (fun s => !selectorMatch sel s)).head? ∧
    acc.getServiceByUUIDAndSubType sel st =
      (acc.services.dropWhile
        (fun s => !(selectorMatch sel s && s.subtype == st))).head? :=
  ⟨find_eq_head_dropWhile _ _, find_eq_head_dropWhile _ _⟩

/-- C2: the serializer is claimed to emit each linked target's composite
key, subtype included.  On the model `accLinkDemo`, whose service `A`
links to the service of UUID `B` and subtype `x`, the emitted entry for
`A` is `["B"]` — the target's subtype is dropped (line 200 reads
`subtype` off the `linkedServices` dictionary, not off the target) — even
though the target's composite key is `"Bx"`, as its own map entry
shows. -/
theorem dictionaryPresentation_link_key_misses_subtype :
    accLinkDemo.dictionaryPresentation.linkedServices
      = [("A", ["B"]), ("Bx", [])] ∧
    compositeKey "B" (some "x") = "Bx" :=
  ⟨by decide, by decide⟩

/-- C1: the round-trip law fails on `accLinkDemo`: before serialization
its first service links to composite key `"Bx"`, but after
`configFromData (dictionaryPresentation _)` both services have empty
linked-service lists — the emitted target key `"B"` resolves to no
service, so the edge is dropped. -/
theorem roundtrip_loses_subtyped_link :
    accLinkDemo.services.map
      (fun s => s.linkedServices.map (fun l => compositeKey l.UUID l.subtype))
      = [["Bx"], []] ∧
    (emptyBase.configFromData accLinkDemo.dictionaryPresentation).services.map
      (fun s => s.linkedServices.map (fun l => compositeKey l.UUID l.subtype))
      = [[], []] :=
  ⟨by decide, by decide⟩

/-- C8: after `updateReachability v` the model's `reachable` equals `v`;
any attached collaborator's reachability also equals `v`; and with no
collaborator attached only the local field changes. -/
theorem updateReachability_mirrors (acc : PlatformAccessory) (v : Bool) :
    (acc.updateReachability v).reachable = v ∧
    Option.all (fun hap => hap.reachable == v)
      (acc.updateReachability v).associatedHAPAccessory = true ∧
    (acc.associatedHAPAccessory = none →
      acc.updateReachability v = { acc with reachable := v }) := by
  cases acc with
  | mk dn u cat svcs reach ctx plug plat hap =>
    cases hap <;>
      simp [PlatformAccessory.updateReachability, Option.all]

/-- Witness for C8 at a concrete input: `accOneA` has no collaborator, and
updating reachability changes only the local field. -/
theorem updateReachability_mirrors_witness :
    accOneA.updateReachability true = { accOneA with reachable := true } :=
  (updateReachability_mirrors accOneA true).2.2 rfl

/-- When the new service's subtype is falsy and some existing service
shares its `UUID`, the duplicate scan reports the no-subtype duplicate
error for that `UUID`. -/
theorem addServiceCheck_falsy (s : Service) (hf : subFalsy s.subtype = true) :
    ∀ l : List Service, (∃ e ∈ l, e.UUID = s.UUID) →
      addServiceCheck l s = some (AccessoryError.duplicateService s.UUID) := by
  intro l
  induction l with
  | nil => rintro ⟨e, he, _⟩; cases he
  | cons h t ih =>
    rintro ⟨e, he, heq⟩
    cases hu : h.UUID == s.UUID with
    | true =>
      have : h.UUID = s.UUID := by simpa using hu
      simp [addServiceCheck, hu, hf, this]
    | false =>
      have hne : h.UUID ≠ s.UUID := by simpa using hu
      have het : e ∈ t := by
        rcases List.mem_cons.mp he with rfl | het
        · exact absurd heq hne
        · exact het
      simp [addServiceCheck, hu]
      exact ih ⟨e, het, heq⟩

/-- When the new service's subtype is truthy and every `UUID`-colliding
existing service carries a different (present) subtype, the duplicate scan
passes. -/
theorem addServiceCheck_distinct (s : Service) (hf : subFalsy s.subtype = false) :
    ∀ l : List Service,
      (∀ e ∈ l, e.UUID = s.UUID →
        e.subtype.isSome = true ∧ s.subtype.getD "" ≠ e.subtype.getD "") →
      addServiceCheck l s = none := by
  intro l
  induction l with
  | nil => intro _; rfl
  | cons h t ih =>
    intro hall
    cases hu : h.UUID == s.UUID with
    | true =>
      have hUeq : h.UUID = s.UUID := by simpa using hu
      obtain ⟨hsome, hne⟩ := hall h (List.mem_cons_self h t) hUeq
      obtain ⟨est, hest⟩ := Option.isSome_iff_exists.mp hsome
      have : s.subtype.getD "" ≠ est := by
        intro hc; exact hne (by rw [hest] at *; simpa [hest] using hc)
      simp [addServiceCheck, hu, hf, hest, this]
      exact ih (fun e he hq => hall e (List.mem_cons_of_mem _ he) hq)
    | false =>
      simp [addServiceCheck, hu]
      exact ih (fun e he hq => hall e (List.mem_cons_of_mem _ he) hq)

/-- When some existing service shares the new service's `UUID` and has no
subtype at all, the duplicate scan always reports an error: the
no-subtype duplicate when the new subtype is falsy, otherwise at latest
the TypeError raised by `existing.subtype.toString()`. -/
theorem addServiceCheck_none_subtype (s : Service) :
    ∀ l : List Service, (∃ e ∈ l, e.UUID = s.UUID ∧ e.subtype = none) →
      ∃ err, addServiceCheck l s = some err := by
  intro l
  induction l with
  | nil => rintro ⟨e, he, _⟩; cases he
  | cons h t ih =>
    rintro ⟨e, he, heq, hnone⟩
    cases hu : h.UUID == s.UUID with
    | true =>
      cases hf : subFalsy s.subtype with
      | true =>
        exact ⟨AccessoryError.duplicateService h.UUID,
          by simp [addServiceCheck, hu, hf]⟩
      | false =>
        cases hsub : h.subtype with
        | none =>
          exact ⟨AccessoryError.typeError,
            by simp [addServiceCheck, hu, hf, hsub]⟩
        | some est =>
          cases hcmp : s.subtype.getD "" == est with
          | true =>
            exact ⟨AccessoryError.duplicateServiceSubtype h.UUID est,
              by simp [addServiceCheck, hu, hf, hsub, hcmp]⟩
          | false =>
            have het : e ∈ t := by
              rcases List.mem_cons.mp he with rfl | het
              · rw [hsub] at hnone; cases hnone
              · exact het
            obtain ⟨err, herr⟩ := ih ⟨e, het, heq, hnone⟩
            exact ⟨err, by simp [addServiceCheck, hu, hf, hsub, hcmp, herr]⟩
    | false =>
      have hne : h.UUID ≠ s.UUID := by simpa using hu
      have het : e ∈ t := by
        rcases List.mem_cons.mp he with rfl | het
        · exact absurd heq hne
        · exact het
      obtain ⟨err, herr⟩ := ih ⟨e, het, heq, hnone⟩
      exact ⟨err, by simp [addServiceCheck, hu, herr]⟩

/-- C3 counterexample: `accOneA` contains a service of UUID `"A"` with no
subtype; adding a second service of UUID `"A"` with subtype `"x"` —
distinct from every existing subtype — was claimed to succeed, but the
call raises the TypeError (the code evaluates the existing service's
absent subtype), so no service is appended. -/
theorem addService_distinct_subtype_cex :
    accOneA.addService (mkSvc 1 "A" (some "x") [])
      = Except.error AccessoryError.typeError := rfl

/-- C3 (amended): for a model containing a service of UUID `u`, adding a
second service of UUID `u` with a falsy subtype fails with the
duplicate-identity error for `u`; and adding one with a truthy subtype
succeeds with `services.length` increased by exactly 1, provided every
existing service of UUID `u` itself carries a subtype distinct from the
new one (when an existing service of UUID `u` lacks a subtype the call
fails instead, see the counterexample). -/
theorem addService_duplicate_rules (acc : PlatformAccessory) (s : Service)
    (hmem : ∃ e ∈ acc.services, e.UUID = s.UUID) :
    (subFalsy s.subtype = true →
      acc.addService s = Except.error (AccessoryError.duplicateService s.UUID)) ∧
    (subFalsy s.subtype = false →
      (∀ e ∈ acc.services, e.UUID = s.UUID →
        e.subtype.isSome = true ∧ s.subtype.getD "" ≠ e.subtype.getD "") →
      ∃ a2, acc.addService s = Except.ok a2 ∧
        a2.services.length = acc.services.length + 1) := by
  constructor
  · intro hf
    have := addServiceCheck_falsy s hf acc.services hmem
    simp [PlatformAccessory.addService, this]
  · intro hf hall
    have hchk := addServiceCheck_distinct s hf acc.services hall
    cases hhap : acc.associatedHAPAccessory with
    | none =>
      refine ⟨{ acc with services := acc.services ++ [s] }, ?_, by simp⟩
      simp [PlatformAccessory.addService, hchk, hhap]
    | some hap =>
      let hap1 : Collaborator := { hap with services := hap.services ++ [s] }
      let acc2 : PlatformAccessory :=
        { acc with services := acc.services ++ [s], associatedHAPAccessory := some hap1 }
      refine ⟨acc2, ?_, by simp [acc2]⟩
      simp [PlatformAccessory.addService, hchk, hhap, hap1, acc2]

/-- Witness for the amended C3 at a concrete input: `accOneAy` holds a
service of UUID `"A"` with subtype `"y"`; adding UUID `"A"` with subtype
`"x"` succeeds. -/
theorem addService_duplicate_rules_witness :
    (accOneAy.addService (mkSvc 1 "A" (some "x") [])).isOk = true := by
  obtain ⟨a2, ha, _⟩ :=
    (addService_duplicate_rules accOneAy (mkSvc 1 "A" (some "x") [])
      ⟨mkSvc 0 "A" (some "y") [], by decide, rfl⟩).2 (by decide) (by decide)
  simp [ha, Except.isOk, Except.toBool]

/-- C10: when the model already contains a service with the new service's
`UUID` and no subtype, `addService` always raises an error — it never
appends the service — whatever subtype the new service carries. -/
theorem addService_against_untyped_existing_errors (acc : PlatformAccessory)
    (s : Service) (h : ∃ e ∈ acc.services, e.UUID = s.UUID ∧ e.subtype = none) :
    ∃ err, acc.addService s = Except.error err := by
  obtain ⟨err, herr⟩ := addServiceCheck_none_subtype s acc.services h
  exact ⟨err, by simp [PlatformAccessory.addService, herr]⟩

/-- Witness for C10 at a concrete input: adding UUID `"A"` with a fresh
subtype `"x"` to `accOneA` (whose only service has UUID `"A"` and no
subtype) does not succeed. -/
theorem addService_against_untyped_existing_errors_witness :
    (accOneA.addService (mkSvc 1 "A" (some "x") [])).isOk = false := by
  obtain ⟨err, herr⟩ :=
    addService_against_untyped_existing_errors accOneA (mkSvc 1 "A" (some "x") [])
      ⟨mkSvc 0 "A" none [], by decide, rfl, rfl⟩
  simp [herr, Except.isOk, Except.toBool]

/-- C4: construction fails exactly on an empty display name, an empty
identifier, or an identifier failing UUID-format validation, with the
matching `InvalidArgumentError` variant; on every valid input it
succeeds (no other check can fail: the duplicate scan runs against an
empty service list). -/
theorem create_invalid_argument_rules (dn u : String) (cat : Option Nat) :
    ((PlatformAccessory.create dn u cat).isOk = true ↔
      (dn.isEmpty = false ∧ u.isEmpty = false ∧ uuidIsValid u = true)) ∧
    (dn.isEmpty = true →
      PlatformAccessory.create dn u cat
        = Except.error AccessoryError.invalidDisplayName) ∧
    (dn.isEmpty = false → u.isEmpty = true →
      PlatformAccessory.create dn u cat
        = Except.error AccessoryError.invalidUUIDEmpty) ∧
    (dn.isEmpty = false → u.isEmpty = false → uuidIsValid u = false →
      PlatformAccessory.create dn u cat
        = Except.error (AccessoryError.invalidUUIDFormat u)) := by
  cases hd : dn.isEmpty <;> cases hu : u.isEmpty <;> cases hv : uuidIsValid u <;>
    simp [PlatformAccessory.create, PlatformAccessory.addService, addServiceCheck,
      hd, hu, hv, Except.isOk, Except.toBool]

/-- Witness for C4 at a concrete input: an empty display name fails with
the display-name error. -/
theorem create_invalid_argument_rules_witness :
    PlatformAccessory.create "" zeroUUID none
      = Except.error AccessoryError.invalidDisplayName :=
  (create_invalid_argument_rules "" zeroUUID none).2.1 rfl

/-- On a valid input, `create` yields exactly the freshly initialised
accessory holding the fully configured accessory-information service. -/
theorem create_ok_eq (dn u : String) (cat : Option Nat)
    (hd : dn.isEmpty = false) (hu : u.isEmpty = false)
    (hv : uuidIsValid u = true) :
    PlatformAccessory.create dn u cat = Except.ok
      { displayName := dn
        UUID := u
        category := match cat with
          | none => OTHER
          | some c => if c == 0 then OTHER else c
        services := [infoService dn]
        reachable := false
        context := ""
        associatedPlugin := none
        associatedPlatform := none
        associatedHAPAccessory := none } := by
  simp [PlatformAccessory.create, PlatformAccessory.addService, addServiceCheck,
    hd, hu, hv, infoService]

/-- C5: a freshly constructed model has exactly one service, the
accessory-information service, whose four metadata characteristics are
set to the display name and the three defaults; `reachable` is `false`;
and an omitted category defaults to the generic `OTHER`. -/
theorem create_initial_state (dn u : String) (cat : Option Nat)
    (a : PlatformAccessory) (h : PlatformAccessory.create dn u cat = Except.ok a) :
    a.services.length = 1 ∧
    a.services.map Service.UUID = [accessoryInformationUUID] ∧
    a.services.map (fun s => s.characteristics.map (fun c => (c.UUID, c.value)))
      = [[(nameUUID, dn), (manufacturerUUID, "Default-Manufacturer"),
          (modelUUID, "Default-Model"),
          (serialNumberUUID, "Default-SerialNumber")]] ∧
    a.reachable = false ∧ a.displayName = dn ∧ a.UUID = u ∧
    (cat = none → a.category = OTHER) := by
  cases hd : dn.isEmpty with
  | true => simp [PlatformAccessory.create, hd] at h
  | false =>
    cases hue : u.isEmpty with
    | true => simp [PlatformAccessory.create, hd, hue] at h
    | false =>
      cases hv : uuidIsValid u with
      | false => simp [PlatformAccessory.create, hd, hue, hv] at h
      | true =>
        rw [create_ok_eq dn u cat hd hue hv] at h
        injection h with h
        subst h
        refine ⟨rfl, rfl, rfl, rfl, rfl, rfl, ?_⟩
        rintro rfl
        rfl

/-- Witness for C5 at a concrete input. -/
theorem create_initial_state_witness :
    (createdOrDefault "Lamp" zeroUUID none).reachable = false ∧
    (createdOrDefault "Lamp" zeroUUID none).services.length = 1 := by
  have h := create_initial_state "Lamp" zeroUUID none
    (createdOrDefault "Lamp" zeroUUID none) rfl
  exact ⟨h.2.2.2.1, h.1⟩

/-- The service list after `removeService`: the first occurrence of the
reference removed when present, unchanged otherwise. -/
theorem removeService_services_eq (acc : PlatformAccessory) (s : Service) :
    (acc.removeService s).services =
      (if acc.services.any (fun t => t.ref == s.ref) then
        removeFirstRef acc.services s.ref
      else acc.services) := by
  unfold PlatformAccessory.removeService
  cases hany : acc.services.any (fun t => t.ref == s.ref) <;>
    cases hhap : acc.associatedHAPAccessory <;> simp [hany, hhap]

/-- When the reference occurs at most once, no service with it remains
after `removeFirstRef`. -/
theorem removeFirstRef_not_mem (r : Nat) :
    ∀ l : List Service, l.countP (fun t => t.ref == r) ≤ 1 →
      ∀ t ∈ removeFirstRef l r, (t.ref == r) = false := by
  intro l
  induction l with
  | nil => intro _ t ht; cases ht
  | cons h rest ih =>
    intro hcount t ht
    cases hh : h.ref == r with
    | true =>
      rw [removeFirstRef, if_pos hh] at ht
      have hcc : List.countP (fun t => t.ref == r) (h :: rest)
          = List.countP (fun t => t.ref == r) rest + 1 := by
        simp [List.countP_cons, hh]
      have h0 : rest.countP (fun t => t.ref == r) = 0 := by omega
      simpa using List.countP_eq_zero.mp h0 t ht
    | false =>
      rw [removeFirstRef, if_neg (by simp [hh])] at ht
      rcases List.mem_cons.mp ht with rfl | ht2
      · exact hh
      · have hcc : List.countP (fun t => t.ref == r) (h :: rest)
            = List.countP (fun t => t.ref == r) rest := by
          simp [List.countP_cons, hh]
        exact ih (by omega) t ht2

/-- Removing a present reference shortens the list by exactly one. -/
theorem removeFirstRef_length (r : Nat) :
    ∀ l : List Service, l.any (fun t => t.ref == r) = true →
      (removeFirstRef l r).length + 1 = l.length := by
  intro l
  induction l with
  | nil => intro h; cases h
  | cons h rest ih =>
    intro hany
    cases hh : h.ref == r with
    | true => simp [removeFirstRef, hh]
    | false =>
      have : rest.any (fun t => t.ref == r) = true := by
        rcases List.any_eq_true.mp hany with ⟨t, ht, hp⟩
        rcases List.mem_cons.mp ht with rfl | ht2
        · rw [hh] at hp; cases hp
        · exact List.any_eq_true.mpr ⟨t, ht2, hp⟩
      simp [removeFirstRef, hh, ih this]

/-- C6: `removeService` on a service whose reference is absent from the
service list raises nothing and leaves the model unchanged; on a present
service (occurring once, as reference identities do) it removes it, the
list shrinks by one, and no subsequent `getService` call can return the
removed service. -/
theorem removeService_spec (acc : PlatformAccessory) (s : Service) :
    (acc.services.any (fun t => t.ref == s.ref) = false →
      acc.removeService s = acc) ∧
    (acc.services.any (fun t => t.ref == s.ref) = true →
      (acc.removeService s).services.length + 1 = acc.services.length) ∧
    (acc.services.countP (fun t => t.ref == s.ref) ≤ 1 →
      ∀ sel : Selector,
        Option.all (fun t => t.ref != s.ref)
          ((acc.removeService s).getService sel) = true) := by
  refine ⟨?_, ?_, ?_⟩
  · intro hany
    unfold PlatformAccessory.removeService
    simp [hany]
  · intro hany
    rw [removeService_services_eq, if_pos hany]
    exact removeFirstRef_length s.ref acc.services hany
  · intro hcount sel
    cases hfind : (acc.removeService s).getService sel with
    | none => rfl
    | some t =>
      have ht : t ∈ (acc.removeService s).services :=
        List.mem_of_find?_eq_some hfind
      have hpred : (t.ref == s.ref) = false := by
        rw [removeService_services_eq] at ht
        cases hany : acc.services.any (fun t => t.ref == s.ref) with
        | true =>
          rw [if_pos hany] at ht
          exact removeFirstRef_not_mem s.ref acc.services hcount t ht
        | false =>
          rw [if_neg (by simp [hany])] at ht
          have hfa := List.any_eq_false.mp hany
          simpa using hfa t ht
      have hne : t.ref ≠ s.ref := by simpa using hpred
      simp [Option.all, hne]

/-- Witness for C6 at concrete inputs: removing an absent reference from
`accOneA` is a no-op, and after removing its only service no `getService`
call returns it. -/
theorem removeService_spec_witness :
    accOneA.removeService (mkSvc 2 "A" none []) = accOneA ∧
    Option.all (fun t => t.ref != (mkSvc 0 "A" none []).ref)
      ((accOneA.removeService (mkSvc 0 "A" none [])).getService
        (Selector.byName "SvcA")) = true := by
  refine ⟨(removeService_spec accOneA (mkSvc 2 "A" none [])).1 (by decide), ?_⟩
  exact (removeService_spec accOneA (mkSvc 0 "A" none [])).2.2 (by decide)
    (Selector.byName "SvcA")

/-- Target keys that do not resolve in the map contribute nothing to the
inner fold. -/
theorem innerFold_filter (map : List (String × Nat)) (srcIdx : Nat) :
    ∀ (ts : List String) (svs : List Service),
      ts.foldl (addLinkedEdge map srcIdx) svs
        = (ts.filter (fun t => (alistGet map t).isSome)).foldl
            (addLinkedEdge map srcIdx) svs := by
  intro ts
  induction ts with
  | nil => intro svs; rfl
  | cons t rest ih =>
    intro svs
    cases hk : alistGet map t with
    | none =>
      have hstep : addLinkedEdge map srcIdx svs t = svs := by
        simp [addLinkedEdge, hk]
      simp [List.foldl_cons, List.filter_cons, hk, hstep, ih]
    | some i =>
      simp [List.foldl_cons, List.filter_cons, hk, ih]

/-- One dictionary entry behaves the same with its unresolvable target
keys dropped. -/
theorem resolveEdgesStep_filter_targets (map : List (String × Nat))
    (k : String) (ts : List String) (svs : List Service) :
    resolveEdgesStep map svs (k, ts.filter (fun t => (alistGet map t).isSome))
      = resolveEdgesStep map svs (k, ts) := by
  cases hk : alistGet map k with
  | none => simp [resolveEdgesStep, hk]
  | some i => simp [resolveEdgesStep, hk, innerFold_filter map i ts svs]

/-- Source keys that do not resolve in the map contribute nothing to the
link-resolution pass. -/
theorem resolveEdges_filter_sources (map : List (String × Nat)) :
    ∀ (ls : List (String × List String)) (svs : List Service),
      ls.foldl (resolveEdgesStep map) svs
        = (ls.filter (fun kv => (alistGet map kv.1).isSome)).foldl
            (resolveEdgesStep map) svs := by
  intro ls
  induction ls with
  | nil => intro svs; rfl
  | cons kv rest ih =>
    intro svs
    cases hk : alistGet map kv.1 with
    | none =>
      have hstep : resolveEdgesStep map svs kv = svs := by
        simp [resolveEdgesStep, hk]
      simp [List.foldl_cons, List.filter_cons, hk, hstep, ih]
    | some i =>
      simp [List.foldl_cons, List.filter_cons, hk, ih]

/-- The link-resolution pass over the full dictionary equals the pass over
its pruned (fully resolvable) part. -/
theorem resolveEdges_prune (map : List (String × Nat))
    (ls : List (String × List String)) (svs : List Service) :
    (pruneLinked map ls).foldl (resolveEdgesStep map) svs
      = ls.foldl (resolveEdgesStep map) svs := by
  rw [pruneLinked, List.foldl_map]
  calc (ls.filter (fun kv => (alistGet map kv.1).isSome)).foldl
        (fun s kv => resolveEdgesStep map s
          (kv.1, kv.2.filter (fun t => (alistGet map t).isSome))) svs
      = (ls.filter (fun kv => (alistGet map kv.1).isSome)).foldl
          (resolveEdgesStep map) svs := by
        apply List.foldl_ext
        intro s kv hkv
        exact resolveEdgesStep_filter_targets map kv.1 kv.2 s
    _ = ls.foldl (resolveEdgesStep map) svs :=
        (resolveEdges_filter_sources map ls svs).symm

/-- The deserializer's service pass builds one service per dictionary
entry. -/
theorem buildServices_go_length :
    ∀ (sds : List ServiceData) (st : List Service × List (String × Nat)),
      (sds.foldl buildServicesStep st).1.length = st.1.length + sds.length := by
  intro sds
  induction sds with
  | nil => intro st; simp
  | cons sd rest ih =>
    intro st
    rw [List.foldl_cons, ih]
    simp [buildServicesStep]
    omega

/-- Adding one edge never changes the number of services. -/
theorem addLinkedEdge_length (map : List (String × Nat)) (srcIdx : Nat)
    (svs : List Service) (tkey : String) :
    (addLinkedEdge map srcIdx svs tkey).length = svs.length := by
  unfold addLinkedEdge
  cases alistGet map tkey with
  | none => rfl
  | some tIdx =>
    simp only [List.get?_eq_getElem?]
    cases h1 : svs[tIdx]? with
    | none => simp [h1]
    | some target =>
      cases h2 : svs[srcIdx]? with
      | none => simp [h1, h2]
      | some src => simp [h1, h2]

/-- The inner fold of the link-resolution pass preserves the number of
services. -/
theorem innerFold_length (map : List (String × Nat)) (srcIdx : Nat) :
    ∀ (ts : List String) (svs : List Service),
      (ts.foldl (addLinkedEdge map srcIdx) svs).length = svs.length := by
  intro ts
  induction ts with
  | nil => intro svs; rfl
  | cons t rest ih =>
    intro svs
    rw [List.foldl_cons, ih, addLinkedEdge_length]

/-- One entry of the link-resolution pass preserves the number of
services. -/
theorem resolveEdgesStep_length (map : List (String × Nat))
    (svs : List Service) (kv : String × List String) :
    (resolveEdgesStep map svs kv).length = svs.length := by
  unfold resolveEdgesStep
  cases alistGet map kv.1 with
  | none => rfl
  | some srcIdx => exact innerFold_length map srcIdx kv.2 svs

/-- The whole link-resolution pass preserves the number of services. -/
theorem resolveEdges_length (map : List (String × Nat)) :
    ∀ (ls : List (String × List String)) (svs : List Service),
      (ls.foldl (resolveEdgesStep map) svs).length = svs.length := by
  intro ls
  induction ls with
  | nil => intro svs; rfl
  | cons kv rest ih =>
    intro svs
    rw [List.foldl_cons, ih, resolveEdgesStep_length]

/-- C7: deserialization never fails on stale link references: feeding the
deserializer a dictionary is the same as feeding it the dictionary with
every unresolvable source key and every unresolvable target key removed —
the stale keys are silently skipped, their edges omitted, and all
resolvable edges still added — and it always reconstructs exactly one
service per serialized service. -/
theorem configFromData_skips_stale (acc : PlatformAccessory)
    (data : AccessoryData) :
    acc.configFromData data =
      acc.configFromData { data with
        linkedServices :=
          pruneLinked (buildServices data.services).2 data.linkedServices } ∧
    (acc.configFromData data).services.length = data.services.length := by
  constructor
  · unfold PlatformAccessory.configFromData
    simp [resolveEdges_prune]
  · unfold PlatformAccessory.configFromData
    simp [resolveEdges_length, buildServices, buildServices_go_length]

end Hoobs
